import Mathlib

/-!
Verification of `tools/rdm/ExpectedResults.py` (ola repository).

The file defines a hierarchy of expected-result classes for an RDM
conformance test suite: `BaseExpectedResult`, `BroadcastResult`,
`SuccessfulResult`, `QueuedMessageResult`, `NackResult` (with
`NackGetResult` / `NackSetResult`) and `AckResult` (with `AckGetResult` /
`AckSetResult`).  Each class implements one operation,
`Matches(status, command_class, pid_value, fields)`, which decides whether
a transaction outcome matches the expectation.

The embedding below translates those methods into Lean functions.  Python
dicts of response fields become association lists; the runtime distinction
between a single dict and a list of dicts (`isinstance(fields, list)`)
becomes the tagged union `Fields`.  The numeric response-code /
response-type constants come from the external `OlaClient` collaborator;
they are opaque distinct constants here, only compared for equality by
the code under verification.
-/

namespace ExpectedResults

/-- Command classes `RDM_GET` / `RDM_SET`, imported by the source from
`ola.PidStore` and only compared for equality. -/
inductive CommandClass where
  | RDM_GET
  | RDM_SET
deriving DecidableEq, Repr

/-- Field values carried in a decoded response: numbers, strings, or byte
sequences.  The source compares them with Python `!=`, i.e. structural
equality within a type. -/
inductive Value where
  | num (n : Int)
  | str (s : String)
  | bytes (b : List Nat)
deriving DecidableEq, Repr

/-- A decoded response mapping (a Python dict of field name to value),
embedded as an association list. -/
abbrev Dict := List (String × Value)

/-- The keys of a mapping (`item.keys()`). -/
def Dict.keys (d : Dict) : List String := d.map Prod.fst

/-- Dictionary indexing `d[f]`: the value stored under the first binding
of the key, if any. -/
def Dict.get : Dict → String → Option Value
  | [], _ => none
  | (k, v) :: rest, f => if k == f then some v else Dict.get rest f

/-- The fields argument of `Matches`: either a single mapping or a list
of mappings ("fields may be either a list of dicts, or a dict" in the
source, distinguished there by `isinstance(fields, list)`). -/
inductive Fields where
  | dict (d : Dict)
  | list (l : List Dict)
deriving DecidableEq, Repr

/-- Python `field in fields` on the top-level `fields` argument.  On a
dict this is key membership.  On a list it is membership among the
elements, which are dicts; a string field name never equals a dict, so
the test is always false. -/
def Fields.hasMember : Fields → String → Bool
  | .dict d, f => (Dict.keys d).contains f
  | .list _, _ => false

/-- Python `fields[field]` on the top-level `fields` argument.  On a dict
this is key lookup.  On a list, indexing by a string raises; the source
only evaluates it after `field in fields` succeeded, so that branch is
unreachable and yields `none` here. -/
def Fields.index : Fields → String → Option Value
  | .dict d, f => Dict.get d f
  | .list _, _ => none

/-- Transaction status (`RDMRequestStatus`): the response code, the
response type and, for NACKs, the nack reason code. -/
structure RDMRequestStatus where
  response_code : Nat
  response_type : Nat
  nack_reason : Nat
deriving DecidableEq, Repr

namespace OlaClient

/-- Response code `OlaClient.RDM_COMPLETED_OK` (external constant; the
source only compares it for equality). -/
def RDM_COMPLETED_OK : Nat := 0

/-- Response code `OlaClient.RDM_WAS_BROADCAST`. -/
def RDM_WAS_BROADCAST : Nat := 1

/-- Response code `OlaClient.RDM_FAILED_TO_SEND` (another member of the
response-code enumeration, used only to build concrete statuses). -/
def RDM_FAILED_TO_SEND : Nat := 2

/-- Response type `OlaClient.RDM_ACK`. -/
def RDM_ACK : Nat := 0

/-- Response type `OlaClient.RDM_ACK_TIMER`. -/
def RDM_ACK_TIMER : Nat := 1

/-- Response type `OlaClient.RDM_NACK_REASON`. -/
def RDM_NACK_REASON : Nat := 2

end OlaClient

/-- Modelled from the spec: the external parameter registry lookup
`GetStore().GetName('QUEUED_MESSAGE').value` lives in `ola.PidStore`,
which is not part of the sources under verification.  The spec describes
it as a read-only, process-wide registry resolving the well-known
"queued message" parameter to its numeric identifier; we model the
resolved identifier as a fixed numeric constant. -/
def QUEUED_MESSAGE_PID : Nat := 32

/-- Errors signalled by `Matches`: `BaseExpectedResult.Matches` raises
`TypeError('Base method called')`. -/
inductive MatchError where
  | baseMethodCalled
deriving DecidableEq, Repr

/-- The base expected-result object: holds the optional action and the
warning / advisory diagnostic messages, set at construction. -/
structure BaseExpectedResult where
  action : Option String := none
  warning : Option String := none
  advisory : Option String := none
deriving DecidableEq, Repr

/-- Method `BaseExpectedResult.Matches`: raises `TypeError('Base method called')`
unconditionally. -/
def BaseExpectedResult.Matches (_self : BaseExpectedResult)
    (_status : RDMRequestStatus) (_command_class : CommandClass)
    (_pid_value : Option Nat) (_fields : Fields) :
    Except MatchError Bool :=
  .error .baseMethodCalled

/-- Method `BroadcastResult.Matches`:
`return OlaClient.RDM_WAS_BROADCAST == status.response_code`. -/
def BroadcastResult.Matches (status : RDMRequestStatus)
    (_command_class : CommandClass) (_pid_value : Option Nat)
    (_fields : Fields) : Bool :=
  OlaClient.RDM_WAS_BROADCAST == status.response_code

/-- Method `SuccessfulResult.Matches`:
`return status.response_code == OlaClient.RDM_COMPLETED_OK`. -/
def SuccessfulResult.Matches (status : RDMRequestStatus)
    (_command_class : CommandClass) (_pid_value : Option Nat)
    (_fields : Fields) : Bool :=
  status.response_code == OlaClient.RDM_COMPLETED_OK

/-- Method `QueuedMessageResult.Matches`: the `SuccessfulResult` check, then the
response type must be `RDM_NACK_REASON` or `RDM_ACK`, and `pid_value`
must differ from the registry-resolved queued-message PID. -/
def QueuedMessageResult.Matches (status : RDMRequestStatus)
    (command_class : CommandClass) (pid_value : Option Nat)
    (fields : Fields) : Bool :=
  let ok := SuccessfulResult.Matches status command_class pid_value fields
  if !ok then
    false
  else
    (status.response_type == OlaClient.RDM_NACK_REASON ||
     status.response_type == OlaClient.RDM_ACK) &&
    pid_value != some QUEUED_MESSAGE_PID

/-- A `NackResult` expectation: the command class, pid id and nack reason
configured at construction. -/
structure NackResult where
  command_class : CommandClass
  pid_id : Nat
  nack_reason : Nat
deriving DecidableEq, Repr

/-- Method `NackResult.Matches`: the `SuccessfulResult` check, and the response
type, command class, pid and nack reason must all equal the configured
ones. -/
def NackResult.Matches (self : NackResult) (status : RDMRequestStatus)
    (command_class : CommandClass) (pid_value : Option Nat)
    (fields : Fields) : Bool :=
  let ok := SuccessfulResult.Matches status command_class pid_value fields
  ok &&
  status.response_type == OlaClient.RDM_NACK_REASON &&
  command_class == self.command_class &&
  some self.pid_id == pid_value &&
  self.nack_reason == status.nack_reason

/-- Constructor `NackGetResult.__init__`: a `NackResult` with the command class fixed
to `RDM_GET`. -/
def NackGetResult (pid_id : Nat) (nack_reason : Nat) : NackResult :=
  ⟨.RDM_GET, pid_id, nack_reason⟩

/-- Constructor `NackSetResult.__init__`: a `NackResult` with the command class fixed
to `RDM_SET`. -/
def NackSetResult (pid_id : Nat) (nack_reason : Nat) : NackResult :=
  ⟨.RDM_SET, pid_id, nack_reason⟩

/-- An `AckResult` expectation: command class, pid id, the field names
required present and the field name to expected value pairs (Python dict
`field_values`, embedded as an association list in iteration order). -/
structure AckResult where
  command_class : CommandClass
  pid_id : Nat
  field_names : List String := []
  field_values : List (String × Value) := []
deriving DecidableEq, Repr

/-- The presence loop of `AckResult.Matches`: if `fields` is a list of
dicts, every configured field name must be a key of every dict; otherwise
every configured name must be a key of the single dict. -/
def AckResult.presenceCheck (self : AckResult) (fields : Fields) : Bool :=
  match fields with
  | .list items =>
      items.all fun item =>
        self.field_names.all fun field => (Dict.keys item).contains field
  | .dict d =>
      self.field_names.all fun field => (Dict.keys d).contains field

/-- The value loop of `AckResult.Matches`: for every configured
`field, value` pair, `field` must be in the top-level `fields` and
`fields[field]` must equal `value`. -/
def AckResult.valueCheck (self : AckResult) (fields : Fields) : Bool :=
  self.field_values.all fun fv =>
    Fields.hasMember fields fv.1 && Fields.index fields fv.1 == some fv.2

/-- Method `AckResult.Matches`: the `SuccessfulResult` check, the response type
must be `RDM_ACK`, the command class and pid must equal the configured
ones, and then the presence and value loops must both succeed. -/
def AckResult.Matches (self : AckResult) (status : RDMRequestStatus)
    (command_class : CommandClass) (pid_value : Option Nat)
    (fields : Fields) : Bool :=
  let ok := SuccessfulResult.Matches status command_class pid_value fields
  if !ok ||
     status.response_type != OlaClient.RDM_ACK ||
     command_class != self.command_class ||
     some self.pid_id != pid_value then
    false
  else
    self.presenceCheck fields && self.valueCheck fields

/-- Constructor `AckGetResult.__init__`: an `AckResult` with the command class fixed
to `RDM_GET`. -/
def AckGetResult (pid_id : Nat) (field_names : List String)
    (field_values : List (String × Value)) : AckResult :=
  ⟨.RDM_GET, pid_id, field_names, field_values⟩

/-- Constructor `AckSetResult.__init__`: an `AckResult` with the command class fixed
to `RDM_SET`. -/
def AckSetResult (pid_id : Nat) (field_names : List String)
    (field_values : List (String × Value)) : AckResult :=
  ⟨.RDM_SET, pid_id, field_names, field_values⟩

/-- The closed hierarchy of expectation variants, with the virtual
dispatch of `Matches` made explicit. -/
inductive ExpectedResult where
  | base (e : BaseExpectedResult)
  | broadcast
  | successful
  | queuedMessage
  | nack (e : NackResult)
  | ack (e : AckResult)
deriving DecidableEq, Repr

/-- Dispatching `Matches` over the hierarchy.  Only the base class
signals an error; every concrete variant returns a boolean. -/
def ExpectedResult.Matches (self : ExpectedResult)
    (status : RDMRequestStatus) (command_class : CommandClass)
    (pid_value : Option Nat) (fields : Fields) :
    Except MatchError Bool :=
  match self with
  | .base e => e.Matches status command_class pid_value fields
  | .broadcast =>
      .ok (BroadcastResult.Matches status command_class pid_value fields)
  | .successful =>
      .ok (SuccessfulResult.Matches status command_class pid_value fields)
  | .queuedMessage =>
      .ok (QueuedMessageResult.Matches status command_class pid_value fields)
  | .nack e => .ok (e.Matches status command_class pid_value fields)
  | .ack e => .ok (e.Matches status command_class pid_value fields)

/-- One call of `Matches`, returning the result together with the
expectation object and the `fields` argument as they stand after the
call.  The method bodies in the source contain no assignment to `self`
or to `fields` (they only read attributes and build local sets), so the
call leaves both unchanged. -/
def ExpectedResult.MatchesCall (self : ExpectedResult)
    (status : RDMRequestStatus) (command_class : CommandClass)
    (pid_value : Option Nat) (fields : Fields) :
    Except MatchError Bool × ExpectedResult × Fields :=
  (self.Matches status command_class pid_value fields, self, fields)

/-- Two consecutive calls of `Matches` with the same arguments, the
second call receiving the expectation and `fields` left by the first. -/
def ExpectedResult.MatchesTwice (self : ExpectedResult)
    (status : RDMRequestStatus) (command_class : CommandClass)
    (pid_value : Option Nat) (fields : Fields) :
    Except MatchError Bool × Except MatchError Bool :=
  let r1 := self.MatchesCall status command_class pid_value fields
  let r2 := r1.2.1.MatchesCall status command_class pid_value r1.2.2
  (r1.1, r2.1)

/-!  Theorems about the `Matches` hierarchy. -/

/-- C7: `BroadcastResult.Matches` is true exactly when the response code is
the transport's "was broadcast" code, independently of the command class,
pid value, fields, and the other status fields. -/
theorem broadcastResult_matches_iff (status : RDMRequestStatus)
    (command_class : CommandClass) (pid_value : Option Nat) (fields : Fields) :
    BroadcastResult.Matches status command_class pid_value fields = true ↔
      status.response_code = OlaClient.RDM_WAS_BROADCAST := by
  simp only [BroadcastResult.Matches, beq_iff_eq]
  exact eq_comm

/-- C9: calling `Matches` on the base class always signals the
"Base method called" error and never returns a boolean. -/
theorem baseExpectedResult_matches_error (e : BaseExpectedResult)
    (status : RDMRequestStatus) (command_class : CommandClass)
    (pid_value : Option Nat) (fields : Fields) :
    e.Matches status command_class pid_value fields =
      Except.error MatchError.baseMethodCalled ∧
    ∀ b : Bool,
      e.Matches status command_class pid_value fields ≠ Except.ok b := by
  refine ⟨rfl, fun b h => ?_⟩
  simp [BaseExpectedResult.Matches] at h

/-- C4: `NackResult.Matches` (hence `NackGetResult` / `NackSetResult`) is
true exactly when the response code is "completed OK", the response type is
NACK-with-reason, the command class equals the configured one, the pid
equals the configured one and the nack reason equals the configured one. -/
theorem nackResult_matches_iff (e : NackResult) (status : RDMRequestStatus)
    (command_class : CommandClass) (pid_value : Option Nat) (fields : Fields) :
    e.Matches status command_class pid_value fields = true ↔
      (status.response_code = OlaClient.RDM_COMPLETED_OK ∧
       status.response_type = OlaClient.RDM_NACK_REASON ∧
       command_class = e.command_class ∧
       some e.pid_id = pid_value ∧
       e.nack_reason = status.nack_reason) := by
  simp [NackResult.Matches, SuccessfulResult.Matches, Bool.and_eq_true,
    and_assoc]

/-- C5: `QueuedMessageResult.Matches` is true exactly when the response
code is "completed OK", the response type is NACK-with-reason or ACK, and
the pid value differs from the registry-resolved queued-message pid. -/
theorem queuedMessageResult_matches_iff (status : RDMRequestStatus)
    (command_class : CommandClass) (pid_value : Option Nat) (fields : Fields) :
    QueuedMessageResult.Matches status command_class pid_value fields = true ↔
      (status.response_code = OlaClient.RDM_COMPLETED_OK ∧
       (status.response_type = OlaClient.RDM_NACK_REASON ∨
        status.response_type = OlaClient.RDM_ACK) ∧
       pid_value ≠ some QUEUED_MESSAGE_PID) := by
  by_cases h : status.response_code = OlaClient.RDM_COMPLETED_OK <;>
    simp [QueuedMessageResult.Matches, SuccessfulResult.Matches, h,
      Bool.or_eq_true, Bool.and_eq_true, bne_iff_ne]

/-- C6: whenever the response code is not "completed OK", the `Matches` of
`SuccessfulResult`, `QueuedMessageResult`, every `NackResult` and every
`AckResult` (including the Get/Set specializations, which construct such
records) is false, for all command classes, pid values and fields. -/
theorem matches_false_of_not_completed_ok (status : RDMRequestStatus)
    (h : status.response_code ≠ OlaClient.RDM_COMPLETED_OK)
    (command_class : CommandClass) (pid_value : Option Nat) (fields : Fields)
    (ne : NackResult) (ae : AckResult) :
    SuccessfulResult.Matches status command_class pid_value fields = false ∧
    QueuedMessageResult.Matches status command_class pid_value fields = false ∧
    ne.Matches status command_class pid_value fields = false ∧
    ae.Matches status command_class pid_value fields = false := by
  simp [SuccessfulResult.Matches, QueuedMessageResult.Matches,
    NackResult.Matches, AckResult.Matches, h]

/-- C6 witness: a transport-failure status makes every such expectation
fail at concrete arguments. -/
theorem matches_false_of_not_completed_ok_witness :
    (RDMRequestStatus.mk OlaClient.RDM_FAILED_TO_SEND OlaClient.RDM_ACK 0).response_code ≠
      OlaClient.RDM_COMPLETED_OK ∧
    (SuccessfulResult.Matches ⟨OlaClient.RDM_FAILED_TO_SEND, OlaClient.RDM_ACK, 0⟩
        .RDM_GET (some 96) (.dict []) = false ∧
     QueuedMessageResult.Matches ⟨OlaClient.RDM_FAILED_TO_SEND, OlaClient.RDM_ACK, 0⟩
        .RDM_GET (some 96) (.dict []) = false ∧
     (NackGetResult 96 1).Matches ⟨OlaClient.RDM_FAILED_TO_SEND, OlaClient.RDM_ACK, 0⟩
        .RDM_GET (some 96) (.dict []) = false ∧
     (AckGetResult 96 [] []).Matches ⟨OlaClient.RDM_FAILED_TO_SEND, OlaClient.RDM_ACK, 0⟩
        .RDM_GET (some 96) (.dict []) = false) :=
  ⟨by decide,
   matches_false_of_not_completed_ok _ (by decide) .RDM_GET (some 96)
     (.dict []) (NackGetResult 96 1) (AckGetResult 96 [] [])⟩

/-- C1: the presence loop of `AckResult.Matches` succeeds on a list of
mappings exactly when every configured field name is a key of every
mapping, and on a single mapping exactly when every configured name is a
key of it; any missing name in any checked mapping makes `Matches`
false. -/
theorem ackResult_presence_check (e : AckResult) :
    (∀ l : List Dict, e.presenceCheck (.list l) = true ↔
        ∀ item ∈ l, ∀ field ∈ e.field_names, field ∈ Dict.keys item) ∧
    (∀ d : Dict, e.presenceCheck (.dict d) = true ↔
        ∀ field ∈ e.field_names, field ∈ Dict.keys d) ∧
    (∀ (status : RDMRequestStatus) (command_class : CommandClass)
        (pid_value : Option Nat) (l : List Dict),
        (∃ item ∈ l, ∃ field ∈ e.field_names, field ∉ Dict.keys item) →
        e.Matches status command_class pid_value (.list l) = false) ∧
    (∀ (status : RDMRequestStatus) (command_class : CommandClass)
        (pid_value : Option Nat) (d : Dict),
        (∃ field ∈ e.field_names, field ∉ Dict.keys d) →
        e.Matches status command_class pid_value (.dict d) = false) := by
  have hl : ∀ l : List Dict, e.presenceCheck (.list l) = true ↔
      ∀ item ∈ l, ∀ field ∈ e.field_names, field ∈ Dict.keys item := by
    intro l
    simp [AckResult.presenceCheck, List.contains_iff_exists_mem_beq]
  have hd : ∀ d : Dict, e.presenceCheck (.dict d) = true ↔
      ∀ field ∈ e.field_names, field ∈ Dict.keys d := by
    intro d
    simp [AckResult.presenceCheck, List.contains_iff_exists_mem_beq]
  refine ⟨hl, hd, ?_, ?_⟩
  · intro status command_class pid_value l h
    have hp : e.presenceCheck (.list l) = false := by
      cases ht : e.presenceCheck (.list l) with
      | false => rfl
      | true =>
        obtain ⟨item, hi, field, hf, hnot⟩ := h
        exact absurd ((hl l).mp ht item hi field hf) hnot
    unfold AckResult.Matches
    simp [hp]
  · intro status command_class pid_value d h
    have hp : e.presenceCheck (.dict d) = false := by
      cases ht : e.presenceCheck (.dict d) with
      | false => rfl
      | true =>
        obtain ⟨field, hf, hnot⟩ := h
        exact absurd ((hd d).mp ht field hf) hnot
    unfold AckResult.Matches
    simp [hp]

/-- C1 witness: the spec's sequence example, where the second row lacks
"b", makes the match fail at an otherwise matching ACK status. -/
theorem ackResult_presence_check_witness :
    (∃ item ∈ [[("a", Value.num 1), ("b", Value.num 2)], [("a", Value.num 1)]],
        ∃ field ∈ (AckGetResult 96 ["a", "b"] []).field_names,
          field ∉ Dict.keys item) ∧
    (AckGetResult 96 ["a", "b"] []).Matches
        ⟨OlaClient.RDM_COMPLETED_OK, OlaClient.RDM_ACK, 0⟩ .RDM_GET (some 96)
        (.list [[("a", Value.num 1), ("b", Value.num 2)],
                [("a", Value.num 1)]]) = false :=
  ⟨by decide,
   (ackResult_presence_check (AckGetResult 96 ["a", "b"] [])).2.2.1
     ⟨OlaClient.RDM_COMPLETED_OK, OlaClient.RDM_ACK, 0⟩ .RDM_GET (some 96)
     [[("a", Value.num 1), ("b", Value.num 2)], [("a", Value.num 1)]]
     (by decide)⟩

/-- C2: the value loop of `AckResult.Matches` succeeds exactly when every
configured field name / expected value pair is found, by top-level
membership and top-level indexing of the `fields` argument as given, with
the stored value equal to the expected one; any missing name or value
mismatch makes `Matches` false. -/
theorem ackResult_value_check (e : AckResult) (status : RDMRequestStatus)
    (command_class : CommandClass) (pid_value : Option Nat) (fields : Fields) :
    (e.valueCheck fields = true ↔
       ∀ fv ∈ e.field_values,
         Fields.hasMember fields fv.1 = true ∧
         Fields.index fields fv.1 = some fv.2) ∧
    ((∃ fv ∈ e.field_values,
         Fields.hasMember fields fv.1 = false ∨
         Fields.index fields fv.1 ≠ some fv.2) →
       e.Matches status command_class pid_value fields = false) := by
  have hv : e.valueCheck fields = true ↔
      ∀ fv ∈ e.field_values,
        Fields.hasMember fields fv.1 = true ∧
        Fields.index fields fv.1 = some fv.2 := by
    simp [AckResult.valueCheck, Bool.and_eq_true]
  refine ⟨hv, fun h => ?_⟩
  have hf : e.valueCheck fields = false := by
    cases ht : e.valueCheck fields with
    | false => rfl
    | true =>
      obtain ⟨fv, hmem, hbad⟩ := h
      rcases hbad with hbad | hbad
      · exact absurd (hv.mp ht fv hmem).1 (by simp [hbad])
      · exact absurd (hv.mp ht fv hmem).2 hbad
  unfold AckResult.Matches
  simp [hf]

/-- C2 witness: the spec's value example with the stored value 6 differing
from the expected 5 makes the match fail. -/
theorem ackResult_value_check_witness :
    (∃ fv ∈ (AckGetResult 96 [] [("a", Value.num 5)]).field_values,
        Fields.hasMember (.dict [("a", Value.num 6), ("b", Value.num 2)]) fv.1 = false ∨
        Fields.index (.dict [("a", Value.num 6), ("b", Value.num 2)]) fv.1 ≠
          some fv.2) ∧
    (AckGetResult 96 [] [("a", Value.num 5)]).Matches
        ⟨OlaClient.RDM_COMPLETED_OK, OlaClient.RDM_ACK, 0⟩ .RDM_GET (some 96)
        (.dict [("a", Value.num 6), ("b", Value.num 2)]) = false :=
  ⟨by decide,
   (ackResult_value_check (AckGetResult 96 [] [("a", Value.num 5)])
      ⟨OlaClient.RDM_COMPLETED_OK, OlaClient.RDM_ACK, 0⟩ .RDM_GET (some 96)
      (.dict [("a", Value.num 6), ("b", Value.num 2)])).2 (by decide)⟩

/-- C3: `AckResult.Matches` (hence the Get/Set specializations, which
construct such records) is false whenever the response type is not ACK, or
the command class differs from the configured one, or the pid differs from
the configured one; in particular a command-class mismatch alone forces a
false result. -/
theorem ackResult_matches_false_of_header_mismatch (e : AckResult)
    (status : RDMRequestStatus) (command_class : CommandClass)
    (pid_value : Option Nat) (fields : Fields)
    (h : status.response_type ≠ OlaClient.RDM_ACK ∨
         command_class ≠ e.command_class ∨
         some e.pid_id ≠ pid_value) :
    e.Matches status command_class pid_value fields = false := by
  unfold AckResult.Matches
  rcases h with h | h | h <;> simp [h]

/-- C3 witness: a SET transaction against a GET expectation fails even
though the pid and the fields match and the status is a successful ACK. -/
theorem ackResult_matches_false_of_header_mismatch_witness :
    ((⟨OlaClient.RDM_COMPLETED_OK, OlaClient.RDM_ACK, 0⟩ : RDMRequestStatus).response_type ≠
        OlaClient.RDM_ACK ∨
     CommandClass.RDM_SET ≠ (AckGetResult 96 ["a", "b"] []).command_class ∨
     some (AckGetResult 96 ["a", "b"] []).pid_id ≠ some 96) ∧
    (AckGetResult 96 ["a", "b"] []).Matches
        ⟨OlaClient.RDM_COMPLETED_OK, OlaClient.RDM_ACK, 0⟩ .RDM_SET (some 96)
        (.dict [("a", Value.num 1), ("b", Value.num 2)]) = false :=
  ⟨by decide,
   ackResult_matches_false_of_header_mismatch (AckGetResult 96 ["a", "b"] [])
     ⟨OlaClient.RDM_COMPLETED_OK, OlaClient.RDM_ACK, 0⟩ .RDM_SET (some 96)
     (.dict [("a", Value.num 1), ("b", Value.num 2)]) (by decide)⟩

/-- C8: when the configured field name / expected value mapping is
non-empty and `fields` is a list of mappings, `AckResult.Matches` is false
whatever the rows contain, because the value loop looks the names up among
the elements of the list. -/
theorem ackResult_rows_value_check_false (e : AckResult)
    (status : RDMRequestStatus) (command_class : CommandClass)
    (pid_value : Option Nat) (l : List Dict)
    (h : e.field_values ≠ []) :
    e.Matches status command_class pid_value (.list l) = false := by
  have hf : e.valueCheck (.list l) = false := by
    cases hfv : e.field_values with
    | nil => exact absurd hfv h
    | cons fv rest =>
      simp [AckResult.valueCheck, hfv, Fields.hasMember]
  unfold AckResult.Matches
  simp [hf]

/-- C8 witness: a single row that does contain the expected name and value
still fails the match, because the lookup is on the list, not the row. -/
theorem ackResult_rows_value_check_false_witness :
    (AckGetResult 96 [] [("a", Value.num 5)]).field_values ≠ [] ∧
    (AckGetResult 96 [] [("a", Value.num 5)]).Matches
        ⟨OlaClient.RDM_COMPLETED_OK, OlaClient.RDM_ACK, 0⟩ .RDM_GET (some 96)
        (.list [[("a", Value.num 5)]]) = false :=
  ⟨by decide,
   ackResult_rows_value_check_false (AckGetResult 96 [] [("a", Value.num 5)])
     ⟨OlaClient.RDM_COMPLETED_OK, OlaClient.RDM_ACK, 0⟩ .RDM_GET (some 96)
     [[("a", Value.num 5)]] (by decide)⟩

/-- C10: `Matches` is deterministic and mutation-free across the whole
hierarchy: a call returns the expectation and the `fields` argument
unchanged, and two consecutive calls with the same arguments yield the
same result. -/
theorem expectedResult_matches_pure (self : ExpectedResult)
    (status : RDMRequestStatus) (command_class : CommandClass)
    (pid_value : Option Nat) (fields : Fields) :
    (self.MatchesCall status command_class pid_value fields).2.1 = self ∧
    (self.MatchesCall status command_class pid_value fields).2.2 = fields ∧
    (self.MatchesTwice status command_class pid_value fields).1 =
      (self.MatchesTwice status command_class pid_value fields).2 :=
  ⟨rfl, rfl, rfl⟩

end ExpectedResults
